import Mathlib

/-!
# IAPTestingDemo-Bridging-Header.h

The repository's only source file is a C/Objective-C header made of an include
guard and five import directives.  The development below embeds the text of
the header line by line, classifies each line the way the preprocessor's lexer
does (blank, comment, directive, other text), and gives the directives their
preprocessor meaning on a state made of the defined macros and the headers
imported so far.
-/

namespace BridgingHeader

/-! ## The source text -/

/-- The eighteen lines of `IAPTestingDemo-Bridging-Header.h`, in file order. -/
def sourceLines : List String :=
  [ "//",
    "//  IAPTestingDemo-Bridging-Header.h",
    "//  IAPTestingDemo",
    "//",
    "//  Created by Russell Archer on 21/06/2020.",
    "//  Copyright © 2020 Russell Archer. All rights reserved.",
    "//",
    "",
    "#ifndef IAPTestingDemo_Bridging_Header_h",
    "#define IAPTestingDemo_Bridging_Header_h",
    "",
    "#import <openssl/pkcs7.h>",
    "#import <openssl/objects.h>",
    "#import <openssl/evp.h>",
    "#import <openssl/ssl.h>",
    "#import <openssl/asn1_locl.h>",
    "",
    "#endif" ]

/-! ## Lines and directives -/

/-- The preprocessor directives the lexer tells apart.  `hashImport` carries
whether the path was written between angle brackets and the path itself;
`other` keeps the text of any directive that is none of the first four. -/
inductive Directive where
  | ifndef (name : String)
  | define (name : String)
  | hashImport (angled : Bool) (path : String)
  | endif
  | other (text : String)
deriving DecidableEq, Repr

/-- A source line after classification.  `code` is any line that is neither
blank, nor a comment, nor a directive: a declaration or a definition. -/
inductive Line where
  | blank
  | comment
  | directive (d : Directive)
  | code (text : String)
deriving DecidableEq, Repr

/-- Horizontal white space inside a line. -/
def isSpace (c : Char) : Bool := c == ' ' || c == Char.ofNat 9

/-- Drop leading white space. -/
def skipSpaces (cs : List Char) : List Char := cs.dropWhile isSpace

/-- The leading run of characters up to the first white space. -/
def firstWord (cs : List Char) : List Char := cs.takeWhile (fun c => !isSpace c)

/-- What follows the leading word, without the white space in between. -/
def afterWord (cs : List Char) : List Char := skipSpaces (cs.dropWhile (fun c => !isSpace c))

/-- The double-quote character. -/
def dquote : Char := Char.ofNat 34

/-- The text up to the closing delimiter `close`, if the delimiter is there. -/
def delimited (close : Char) (angled : Bool) (rest : List Char) : Option (Bool × String) :=
  if close ∈ rest then some (angled, String.mk (rest.takeWhile (fun c => c != close))) else none

/-- The operand of an import: a path between angle brackets or between double
quotes; anything else is not an import the lexer understands. -/
def parseImportOperand (cs : List Char) : Option (Bool × String) :=
  match cs with
  | [] => none
  | c :: rest =>
      if c = '<' then delimited '>' true rest
      else if c = dquote then delimited dquote false rest
      else none

/-- The directive written after the `#` of a directive line. -/
def parseDirective (cs : List Char) : Directive :=
  let body := skipSpaces cs
  let kw := String.mk (firstWord body)
  let arg := afterWord body
  if kw = "ifndef" then Directive.ifndef (String.mk (firstWord arg))
  else if kw = "define" then Directive.define (String.mk (firstWord arg))
  else if kw = "import" then
    match parseImportOperand arg with
    | some (angled, path) => Directive.hashImport angled path
    | none => Directive.other (String.mk body)
  else if kw = "endif" then Directive.endif
  else Directive.other (String.mk body)

/-- Classification of one source line. -/
def parseLine (l : String) : Line :=
  match skipSpaces l.data with
  | [] => Line.blank
  | '/' :: '/' :: _ => Line.comment
  | '#' :: rest => Line.directive (parseDirective rest)
  | _ => Line.code l

/-- The header as its sequence of classified lines. -/
def headerLines : List Line := sourceLines.map parseLine

/-- The directives of a file, in order. -/
def directivesOf : List Line → List Directive
  | [] => []
  | Line.directive d :: ls => d :: directivesOf ls
  | _ :: ls => directivesOf ls

/-- The lines of a file that are declarations or definitions. -/
def codeOf : List Line → List String
  | [] => []
  | Line.code t :: ls => t :: codeOf ls
  | _ :: ls => codeOf ls

/-- The header as its sequence of preprocessor directives. -/
def headerDirectives : List Directive := directivesOf headerLines

/-- The name of the header's guard macro. -/
def guardName : String := "IAPTestingDemo_Bridging_Header_h"

/-- The include-guard shape: the file's first directive is `#ifndef m`, its
second is `#define m` for the same `m`, and its last is `#endif`.  The result
is the guard macro with the directives in between. -/
def guardedBody (ds : List Directive) : Option (String × List Directive) :=
  match ds with
  | Directive.ifndef m :: Directive.define m2 :: rest =>
      if m = m2 ∧ rest.getLast? = some Directive.endif then some (m, rest.dropLast) else none
  | _ => none

/-- Whether a directive is an import. -/
def Directive.isImport : Directive → Bool
  | Directive.hashImport _ _ => true
  | _ => false

/-- Whether a directive is one of the three that make up an include guard on
the macro `g`. -/
def Directive.isGuardOf (g : String) : Directive → Bool
  | Directive.ifndef m => m == g
  | Directive.define m => m == g
  | Directive.endif => true
  | _ => false

/-- The paths of the import directives of a directive list, in order. -/
def importPaths : List Directive → List String
  | [] => []
  | Directive.hashImport _ p :: ds => p :: importPaths ds
  | _ :: ds => importPaths ds

/-! ## The interface groups of the specification -/

/-- The four groups of third-party symbols the specification lists as the
header's external interface. -/
inductive InterfaceGroup where
  | pkcs7
  | asn1
  | evp
  | ssl
deriving DecidableEq, Repr

/-- Modelled from the spec: the OpenSSL headers are not part of the repository,
so which interface group a header serves is taken from the specification's
list of external interfaces (PKCS#7 structures and functions; ASN.1 object and
internal low-level declarations; the EVP high-level crypto interface; SSL/TLS
context and connection structures) and the library's header names. -/
def headerGroup (path : String) : Option InterfaceGroup :=
  if path = "openssl/pkcs7.h" then some InterfaceGroup.pkcs7
  else if path = "openssl/objects.h" then some InterfaceGroup.asn1
  else if path = "openssl/asn1_locl.h" then some InterfaceGroup.asn1
  else if path = "openssl/evp.h" then some InterfaceGroup.evp
  else if path = "openssl/ssl.h" then some InterfaceGroup.ssl
  else none

/-! ## Preprocessing -/

/-- The preprocessor state: the defined macros (a list without repetition used
as a set) and the headers imported so far, oldest first. -/
structure PPState where
  macros : List String
  imported : List String
deriving DecidableEq, Repr

/-- The state before anything has been processed. -/
def PPState.empty : PPState := ⟨[], []⟩

/-- Add a macro to the set of defined macros. -/
def defineMacro (m : String) (ms : List String) : List String :=
  if m ∈ ms then ms else ms ++ [m]

/-- Add several macros, one after the other. -/
def defineAll (new : List String) (ms : List String) : List String :=
  new.foldl (fun acc m => defineMacro m acc) ms

/-- The effect of `#import`: a header that was imported before is not read
again; otherwise it is recorded and the macros it defines become defined.  The
imported headers belong to OpenSSL, not to the repository, so the macros each
one defines are the parameter `ext`. -/
def importHeader (ext : String → List String) (p : String) (s : PPState) : PPState :=
  if p ∈ s.imported then s
  else { macros := defineAll (ext p) s.macros, imported := s.imported ++ [p] }

/-- One directive.  `skip` is the depth of conditional nesting inside a group
whose condition was false (0 when the text is live); directives other than
conditionals have no effect while it is positive. -/
def stepDirective (ext : String → List String) (d : Directive) (skip : Nat) (s : PPState) :
    Nat × PPState :=
  match d with
  | Directive.ifndef m =>
      if 0 < skip then (skip + 1, s)
      else if m ∈ s.macros then (1, s)
      else (0, s)
  | Directive.endif => (skip - 1, s)
  | Directive.define m =>
      if 0 < skip then (skip, s) else (0, { s with macros := defineMacro m s.macros })
  | Directive.hashImport _ p =>
      if 0 < skip then (skip, s) else (0, importHeader ext p s)
  | Directive.other _ => (skip, s)

/-- One line: only directives act on the state. -/
def stepLine (ext : String → List String) (l : Line) (skip : Nat) (s : PPState) : Nat × PPState :=
  match l with
  | Line.directive d => stepDirective ext d skip s
  | _ => (skip, s)

/-- A whole file, line by line. -/
def runLines (ext : String → List String) : List Line → Nat → PPState → Nat × PPState
  | [], skip, s => (skip, s)
  | l :: ls, skip, s => runLines ext ls (stepLine ext l skip s).1 (stepLine ext l skip s).2

/-- Processing the bridging header from state `s`. -/
def preprocess (ext : String → List String) (s : PPState) : PPState :=
  (runLines ext headerLines 0 s).2

/-- A sample assignment of macros to external headers, used to evaluate the
preprocessor on concrete inputs. -/
def sampleExt (p : String) : List String :=
  if p = "openssl/pkcs7.h" then ["HEADER_PKCS7_H"]
  else if p = "openssl/evp.h" then ["HEADER_ENVELOPE_H", "EVP_MAX_MD_SIZE"]
  else []

end BridgingHeader

namespace BridgingHeader

/-! ## The header, evaluated -/

theorem headerLines_eq :
    headerLines =
      [Line.comment, Line.comment, Line.comment, Line.comment, Line.comment, Line.comment,
       Line.comment, Line.blank,
       Line.directive (Directive.ifndef guardName),
       Line.directive (Directive.define guardName),
       Line.blank,
       Line.directive (Directive.hashImport true "openssl/pkcs7.h"),
       Line.directive (Directive.hashImport true "openssl/objects.h"),
       Line.directive (Directive.hashImport true "openssl/evp.h"),
       Line.directive (Directive.hashImport true "openssl/ssl.h"),
       Line.directive (Directive.hashImport true "openssl/asn1_locl.h"),
       Line.blank,
       Line.directive Directive.endif] := by
  decide

theorem importPaths_header :
    importPaths headerDirectives =
      ["openssl/pkcs7.h", "openssl/objects.h", "openssl/evp.h", "openssl/ssl.h",
       "openssl/asn1_locl.h"] := by
  decide

/-! ## Macros only accumulate -/

theorem mem_defineMacro_self (m : String) (ms : List String) : m ∈ defineMacro m ms := by
  unfold defineMacro
  split
  · assumption
  · simp

theorem mem_defineMacro_iff {m x : String} {ms : List String} :
    x ∈ defineMacro m ms ↔ x ∈ ms ∨ x = m := by
  unfold defineMacro
  split
  · rename_i h
    constructor
    · exact Or.inl
    · rintro (h1 | rfl)
      · exact h1
      · exact h
  · simp

theorem mem_defineAll_iff {new : List String} {x : String} {ms : List String} :
    x ∈ defineAll new ms ↔ x ∈ ms ∨ x ∈ new := by
  induction new generalizing ms with
  | nil => simp [defineAll]
  | cons n ns ih =>
      have : defineAll (n :: ns) ms = defineAll ns (defineMacro n ms) := rfl
      rw [this, ih, mem_defineMacro_iff]
      simp only [List.mem_cons]
      tauto

theorem mem_importHeader_macros_iff {ext : String → List String} {p x : String} {s : PPState} :
    x ∈ (importHeader ext p s).macros ↔ x ∈ s.macros ∨ (p ∉ s.imported ∧ x ∈ ext p) := by
  unfold importHeader
  split
  · rename_i h
    simp [h]
  · rename_i h
    simp [mem_defineAll_iff, h]

theorem mem_importHeader_imported_iff {ext : String → List String} {p x : String}
    {s : PPState} :
    x ∈ (importHeader ext p s).imported ↔ x ∈ s.imported ∨ x = p := by
  unfold importHeader
  split
  · rename_i h
    constructor
    · exact Or.inl
    · rintro (h1 | rfl)
      · exact h1
      · exact h
  · simp

/-! ## The two paths through the header -/

theorem preprocess_of_defined (ext : String → List String) (s : PPState)
    (h : guardName ∈ s.macros) : preprocess ext s = s := by
  unfold preprocess
  rw [headerLines_eq]
  simp only [runLines, stepLine, stepDirective, h, if_true, Nat.lt_irrefl, if_false,
    Nat.zero_lt_one, Nat.sub_self]

theorem preprocess_of_undefined (ext : String → List String) (s : PPState)
    (h : guardName ∉ s.macros) :
    preprocess ext s =
      importHeader ext "openssl/asn1_locl.h"
        (importHeader ext "openssl/ssl.h"
          (importHeader ext "openssl/evp.h"
            (importHeader ext "openssl/objects.h"
              (importHeader ext "openssl/pkcs7.h"
                { s with macros := defineMacro guardName s.macros })))) := by
  unfold preprocess
  rw [headerLines_eq]
  simp only [runLines, stepLine, stepDirective, h, if_true, Nat.lt_irrefl, if_false]

theorem guard_mem_preprocess (ext : String → List String) (s : PPState) :
    guardName ∈ (preprocess ext s).macros := by
  by_cases h : guardName ∈ s.macros
  · rw [preprocess_of_defined ext s h]
    exact h
  · rw [preprocess_of_undefined ext s h]
    simp only [mem_importHeader_macros_iff]
    exact Or.inl (Or.inl (Or.inl (Or.inl (Or.inl (mem_defineMacro_self _ _)))))

/-- A first pass from the empty state, with the sample external macros: the
guard macro is defined first, then each header is recorded with its macros. -/
theorem preprocess_from_empty :
    preprocess sampleExt PPState.empty =
      PPState.mk [guardName, "HEADER_PKCS7_H", "HEADER_ENVELOPE_H", "EVP_MAX_MD_SIZE"]
        ["openssl/pkcs7.h", "openssl/objects.h", "openssl/evp.h", "openssl/ssl.h",
         "openssl/asn1_locl.h"] := by
  decide

end BridgingHeader

namespace BridgingHeader

/-! ## The claims -/

/-- C1: read as its sequence of preprocessor directives, the header is the
guard `#ifndef`/`#define` on `IAPTestingDemo_Bridging_Header_h`, then exactly
the five imports of `<openssl/pkcs7.h>`, `<openssl/objects.h>`,
`<openssl/evp.h>`, `<openssl/ssl.h>`, `<openssl/asn1_locl.h>` in this order,
then the closing `#endif`; it has no other directive and no declaration line;
and each of the four interface groups of the specification is served by at
least one of the imported headers. -/
theorem header_is_guard_around_five_imports :
    guardedBody headerDirectives =
        some (guardName,
          [Directive.hashImport true "openssl/pkcs7.h",
           Directive.hashImport true "openssl/objects.h",
           Directive.hashImport true "openssl/evp.h",
           Directive.hashImport true "openssl/ssl.h",
           Directive.hashImport true "openssl/asn1_locl.h"])
    ∧ headerDirectives =
        [Directive.ifndef guardName, Directive.define guardName,
         Directive.hashImport true "openssl/pkcs7.h",
         Directive.hashImport true "openssl/objects.h",
         Directive.hashImport true "openssl/evp.h",
         Directive.hashImport true "openssl/ssl.h",
         Directive.hashImport true "openssl/asn1_locl.h",
         Directive.endif]
    ∧ codeOf headerLines = []
    ∧ ∀ g : InterfaceGroup, ∃ p ∈ importPaths headerDirectives, headerGroup p = some g := by
  refine ⟨by decide, by decide, by decide, ?_⟩
  intro g
  cases g <;> decide

/-- C2, as stated, fails: processed from the empty state, the header defines
the macro `IAPTestingDemo_Bridging_Header_h`, a name that was not defined
before and that none of the imported headers supplies; and the header's
directives are not all imports, since its guard is made of `#ifndef`,
`#define` and `#endif`. -/
theorem header_defines_nothing_counterexample :
    ¬ (∀ m ∈ (preprocess sampleExt PPState.empty).macros,
        m ∈ PPState.empty.macros ∨ ∃ p ∈ importPaths headerDirectives, m ∈ sampleExt p)
    ∧ ¬ (∀ d ∈ headerDirectives, d.isImport = true) := by
  constructor
  · intro h
    have hg := h guardName (guard_mem_preprocess sampleExt PPState.empty)
    revert hg
    decide
  · intro h
    have hd := h (Directive.define guardName) (by decide)
    revert hd
    decide

/-- C2, amended: the header has no declaration line, so it declares no
function, type or data structure of its own; each of its directives is
an import or one of the three directives of the guard on
`IAPTestingDemo_Bridging_Header_h`; from every starting state, a macro defined
after processing the header was defined before, or is the guard macro, or is
defined by one of the five imported headers; and a header recorded as imported
afterwards was imported before or is one of the five. -/
theorem header_defines_only_its_guard (ext : String → List String) (s : PPState) :
    codeOf headerLines = []
    ∧ (∀ d ∈ headerDirectives, d.isImport = true ∨ d.isGuardOf guardName = true)
    ∧ (∀ m ∈ (preprocess ext s).macros,
        m ∈ s.macros ∨ m = guardName ∨ ∃ p ∈ importPaths headerDirectives, m ∈ ext p)
    ∧ (∀ p ∈ (preprocess ext s).imported,
        p ∈ s.imported ∨ p ∈ importPaths headerDirectives) := by
  refine ⟨by decide, by decide, ?_, ?_⟩
  · intro m hm
    rw [importPaths_header]
    by_cases h : guardName ∈ s.macros
    · rw [preprocess_of_defined ext s h] at hm
      exact Or.inl hm
    · rw [preprocess_of_undefined ext s h] at hm
      simp only [mem_importHeader_macros_iff, mem_defineMacro_iff] at hm
      simp only [List.mem_cons, List.mem_singleton, exists_eq_or_imp, exists_eq_left]
      tauto
  · intro p hp
    rw [importPaths_header]
    by_cases h : guardName ∈ s.macros
    · rw [preprocess_of_defined ext s h] at hp
      exact Or.inl hp
    · rw [preprocess_of_undefined ext s h] at hp
      simp only [mem_importHeader_imported_iff] at hp
      simp only [List.mem_cons, List.mem_singleton]
      tauto

/-- The amended C2 at a concrete input: from the empty state with the sample
external macros, `HEADER_PKCS7_H` is defined after processing, and it is one
of the macros of an imported header. -/
theorem header_defines_only_its_guard_witness :
    "HEADER_PKCS7_H" ∈ (preprocess sampleExt PPState.empty).macros
    ∧ ("HEADER_PKCS7_H" ∈ PPState.empty.macros ∨ "HEADER_PKCS7_H" = guardName
        ∨ ∃ p ∈ importPaths headerDirectives, "HEADER_PKCS7_H" ∈ sampleExt p) :=
  ⟨by decide,
   (header_defines_only_its_guard sampleExt PPState.empty).2.2.1 "HEADER_PKCS7_H" (by decide)⟩

/-- C4: inclusion of the header is idempotent.  From every starting state, the
guard macro is defined after one pass, a second pass leaves the state of the
first pass as it is, and when the guard macro is defined at the start a pass
changes nothing. -/
theorem preprocess_idempotent (ext : String → List String) (s : PPState) :
    guardName ∈ (preprocess ext s).macros
    ∧ preprocess ext (preprocess ext s) = preprocess ext s
    ∧ (guardName ∈ s.macros → preprocess ext s = s) :=
  ⟨guard_mem_preprocess ext s,
   preprocess_of_defined ext (preprocess ext s) (guard_mem_preprocess ext s),
   preprocess_of_defined ext s⟩

/-- C4 at a concrete input: a state in which the guard macro is defined and
one header has been imported is left as it is. -/
theorem preprocess_idempotent_witness :
    guardName ∈ (PPState.mk [guardName] ["openssl/evp.h"]).macros
    ∧ preprocess sampleExt (PPState.mk [guardName] ["openssl/evp.h"])
        = PPState.mk [guardName] ["openssl/evp.h"] :=
  ⟨by decide,
   (preprocess_idempotent sampleExt (PPState.mk [guardName] ["openssl/evp.h"])).2.2 (by decide)⟩

end BridgingHeader
